import Mathlib

/-!
Verification of the astrological core of the Hastrology ai_server:
birth date/time parsing, Julian-day conversion, zodiac sign derivation,
whole-sign house assignment, sect determination, annual profections,
zodiacal reference frames, and the horoscope generation/caching skeleton.
The definitions are shallow embeddings of
src/ai_server/src/services/horoscope_service.py and
src/ai_server/src/services/ephemeris_service.py; external collaborators
(Swiss Ephemeris, the cache service, the LLM) enter as explicit inputs.
-/

/-- The twelve zodiac signs in zodiacal order
(ZODIAC_SIGNS in ephemeris_service.py). -/
def ZODIAC_SIGNS : List String :=
  ["Aries", "Taurus", "Gemini", "Cancer", "Leo", "Virgo",
   "Libra", "Scorpio", "Sagittarius", "Capricorn", "Aquarius", "Pisces"]

/-- Numeric value of a decimal digit character. -/
def digitVal (c : Char) : Nat := c.toNat - 48

/-- First `some` produced by `f` over a list, in order: the backtracking
order of a regex alternation. -/
def firstSome {α β : Type} (f : α → Option β) : List α → Option β
  | [] => none
  | x :: xs =>
    match f x with
    | some y => some y
    | none => firstSome f xs

/-- ASCII whitespace recognised by a Python regex `\s`. -/
def isSpaceC (c : Char) : Bool :=
  c == ' ' || c == '\t' || c == '\n' || c == '\r' || c == '\x0b' || c == '\x0c'

/-- Drop a (possibly empty) run of whitespace: the `\s*` of the
birth-time regex in horoscope_service.py. -/
def dropSpaces : List Char → List Char
  | [] => []
  | c :: rest => if isSpaceC c then dropSpaces rest else c :: rest

/-- Consume a non-empty run of whitespace (the `\s+` that a literal blank
inside a Python strptime format compiles to), or fail. -/
def skip1Spaces : List Char → Option (List Char)
  | [] => none
  | c :: rest => if isSpaceC c then some (dropSpaces rest) else none

/-- Python `str.strip()`: remove leading and trailing whitespace. -/
def stripChars (l : List Char) : List Char :=
  dropSpaces ((dropSpaces l.reverse).reverse)

/-! ## Birth-time parsing (`_parse_time`, horoscope_service.py lines 154-177) -/

/-- Prefix match of the `(\d{1,2}):(\d{2})` core shared by both birth-time
regexes of `_parse_time`: a greedy one-or-two digit hour, a colon, exactly two
minute digits; yields hour value, minute value and the unconsumed rest.
The two-digit hour alternative is tried first, as the greedy `\d{1,2}` does. -/
def hmMatch : List Char → Option (Nat × Nat × List Char)
  | a :: b :: c :: d :: e :: rest =>
    if a.isDigit && b.isDigit && c == ':' && d.isDigit && e.isDigit then
      some (10 * digitVal a + digitVal b, 10 * digitVal d + digitVal e, rest)
    else if a.isDigit && b == ':' && c.isDigit && d.isDigit then
      some (digitVal a, 10 * digitVal c + digitVal d, e :: rest)
    else none
  | [a, b, c, d] =>
    if a.isDigit && b == ':' && c.isDigit && d.isDigit then
      some (digitVal a, 10 * digitVal c + digitVal d, [])
    else none
  | _ => none

/-- The optional `\s*(AM|PM|am|pm)?` suffix of the first birth-time regex:
`some true` means PM, `some false` means AM, `none` means no period marker. -/
def matchPeriod (l : List Char) : Option Bool :=
  match dropSpaces l with
  | 'A' :: 'M' :: _ => some false
  | 'a' :: 'm' :: _ => some false
  | 'P' :: 'M' :: _ => some true
  | 'p' :: 'm' :: _ => some true
  | _ => none

/-- The full first regex of `_parse_time`:
`(\d{1,2}):(\d{2})\s*(AM|PM|am|pm)?` as a prefix match on the stripped input.
It succeeds exactly when `hmMatch` does, since the period group is optional. -/
def matchTime12 (l : List Char) : Option (Nat × Nat × Option Bool) :=
  (hmMatch l).map (fun x => (x.1, x.2.1, matchPeriod x.2.2))

/-- `_parse_time` (horoscope_service.py): try the 12-hour regex and apply the
AM/PM adjustment, then the 24-hour regex, and default to local noon (12, 0)
when neither matches. Total: it never raises. -/
def parse_time (birth_time : String) : Nat × Nat :=
  let l := stripChars birth_time.toList
  match matchTime12 l with
  | some (h, m, period) =>
    match period with
    | some true => if h ≠ 12 then (h + 12, m) else (h, m)
    | some false => if h = 12 then (0, m) else (h, m)
    | none => (h, m)
  | none =>
    match hmMatch l with
    | some (h, m, _) => (h, m)
    | none => (12, 0)

/-! ## Birth-date parsing (`_parse_date`, horoscope_service.py lines 130-152) -/

/-- A civil calendar date as produced by `_parse_date`. -/
structure SDate where
  year : Nat
  month : Nat
  day : Nat
deriving DecidableEq, Repr

/-- Candidates, in regex-alternation order, of Python strptime's `%d` pattern
`3[01]|[12]\d|0[1-9]|[1-9]`: at most one two-digit form, then the
one-digit form. -/
def dayTokenCands : List Char → List (Nat × List Char)
  | [] => []
  | [a] => if '1' ≤ a && a ≤ '9' then [(digitVal a, ([] : List Char))] else []
  | a :: b :: rest =>
    (if (a == '3' && (b == '0' || b == '1'))
        || ((a == '1' || a == '2') && b.isDigit)
        || (a == '0' && ('1' ≤ b && b ≤ '9')) then
      [(10 * digitVal a + digitVal b, rest)]
    else []) ++
    (if '1' ≤ a && a ≤ '9' then [(digitVal a, b :: rest)] else [])

/-- Candidates, in regex-alternation order, of Python strptime's `%m` pattern
`1[0-2]|0[1-9]|[1-9]`. -/
def monthTokenCands : List Char → List (Nat × List Char)
  | [] => []
  | [a] => if '1' ≤ a && a ≤ '9' then [(digitVal a, ([] : List Char))] else []
  | a :: b :: rest =>
    (if (a == '1' && (b == '0' || b == '1' || b == '2'))
        || (a == '0' && ('1' ≤ b && b ≤ '9')) then
      [(10 * digitVal a + digitVal b, rest)]
    else []) ++
    (if '1' ≤ a && a ≤ '9' then [(digitVal a, b :: rest)] else [])

/-- Python strptime's `%Y` pattern: exactly four digits. -/
def year4Token : List Char → Option (Nat × List Char)
  | a :: b :: c :: d :: rest =>
    if a.isDigit && b.isDigit && c.isDigit && d.isDigit then
      some (1000 * digitVal a + 100 * digitVal b + 10 * digitVal c + digitVal d, rest)
    else none
  | _ => none

/-- ASCII lower-casing, for the IGNORECASE month-name matching of strptime. -/
def lowerChar (c : Char) : Char :=
  if 'A' ≤ c && c ≤ 'Z' then Char.ofNat (c.toNat + 32) else c

/-- Case-insensitively consume the given (lowercase) name from the front of
the input, returning the rest. -/
def matchNameCI : List Char → List Char → Option (List Char)
  | [], l => some l
  | _ :: _, [] => none
  | n :: ns, c :: cs => if lowerChar c == n then matchNameCI ns cs else none

/-- Full month names for strptime's `%B` (C locale). -/
def monthNamesFull : List (List Char × Nat) :=
  [("january".toList, 1), ("february".toList, 2), ("march".toList, 3),
   ("april".toList, 4), ("may".toList, 5), ("june".toList, 6),
   ("july".toList, 7), ("august".toList, 8), ("september".toList, 9),
   ("october".toList, 10), ("november".toList, 11), ("december".toList, 12)]

/-- Abbreviated month names for strptime's `%b` (C locale). -/
def monthNamesAbbr : List (List Char × Nat) :=
  [("jan".toList, 1), ("feb".toList, 2), ("mar".toList, 3), ("apr".toList, 4),
   ("may".toList, 5), ("jun".toList, 6), ("jul".toList, 7), ("aug".toList, 8),
   ("sep".toList, 9), ("oct".toList, 10), ("nov".toList, 11), ("dec".toList, 12)]

/-- Month-name match for `%B`/`%b`. -/
def matchMonthName (names : List (List Char × Nat)) (l : List Char) :
    Option (Nat × List Char) :=
  firstSome (fun nv => (matchNameCI nv.1 l).map (fun rest => (nv.2, rest))) names

/-- Syntactic full match of the formats `%B %d, %Y` / `%b %d, %Y`
("April 20, 1995"): month name, whitespace, day, a literal comma,
whitespace, four-digit year, end of string. -/
def matchNameDY (names : List (List Char × Nat)) (l : List Char) : Option SDate :=
  match matchMonthName names l with
  | none => none
  | some (m, l1) =>
    match skip1Spaces l1 with
    | none => none
    | some l2 =>
      firstSome (fun dc =>
        match dc.2 with
        | c :: l3 =>
          if c == ',' then
            match skip1Spaces l3 with
            | none => none
            | some l4 =>
              match year4Token l4 with
              | some (y, []) => some ⟨y, m, dc.1⟩
              | _ => none
          else none
        | [] => none) (dayTokenCands l2)

/-- Syntactic full match of the format `%Y-%m-%d` ("1995-04-20"). -/
def matchYMD (l : List Char) : Option SDate :=
  match year4Token l with
  | some (y, c :: l2) =>
    if c == '-' then
      firstSome (fun mc =>
        match mc.2 with
        | c2 :: l4 =>
          if c2 == '-' then
            firstSome (fun dc =>
              match dc.2 with
              | [] => some ⟨y, mc.1, dc.1⟩
              | _ :: _ => none) (dayTokenCands l4)
          else none
        | [] => none) (monthTokenCands l2)
    else none
  | _ => none

/-- Syntactic full match of day-first formats `%d/%m/%Y` and `%d-%m-%Y`. -/
def matchDMY (sep : Char) (l : List Char) : Option SDate :=
  firstSome (fun dc =>
    match dc.2 with
    | c :: l2 =>
      if c == sep then
        firstSome (fun mc =>
          match mc.2 with
          | c2 :: l4 =>
            if c2 == sep then
              match year4Token l4 with
              | some (y, []) => some ⟨y, mc.1, dc.1⟩
              | _ => none
            else none
          | [] => none) (monthTokenCands l2)
      else none
    | [] => none) (dayTokenCands l)

/-- Syntactic full match of the month-first format `%m/%d/%Y`. -/
def matchMDY (sep : Char) (l : List Char) : Option SDate :=
  firstSome (fun mc =>
    match mc.2 with
    | c :: l2 =>
      if c == sep then
        firstSome (fun dc =>
          match dc.2 with
          | c2 :: l4 =>
            if c2 == sep then
              match year4Token l4 with
              | some (y, []) => some ⟨y, mc.1, dc.1⟩
              | _ => none
            else none
          | [] => none) (dayTokenCands l2)
      else none
    | [] => none) (monthTokenCands l)

/-- Gregorian leap-year rule, as used by Python's datetime. -/
def isLeapYear (y : Nat) : Bool :=
  decide ((y % 4 = 0 ∧ ¬ y % 100 = 0) ∨ y % 400 = 0)

/-- Days in a month given a leap flag. -/
def daysInMonthL (leap : Bool) : Nat → Nat
  | 1 => 31
  | 2 => if leap then 29 else 28
  | 3 => 31
  | 4 => 30
  | 5 => 31
  | 6 => 30
  | 7 => 31
  | 8 => 31
  | 9 => 30
  | 10 => 31
  | 11 => 30
  | 12 => 31
  | _ => 0

/-- Days in a month of a given year. -/
def daysInMonth (y m : Nat) : Nat := daysInMonthL (isLeapYear y) m

/-- Validity of a (year, month, day) triple for Python's
`datetime(year, month, day)` constructor (MINYEAR 1, MAXYEAR 9999). -/
def isValidDate (y m d : Nat) : Bool :=
  1 ≤ y && y ≤ 9999 && 1 ≤ m && m ≤ 12 && 1 ≤ d && d ≤ daysInMonth y m

/-- A strptime attempt: the syntactic regex match followed by the calendar
validation that Python's datetime constructor performs; an invalid date
raises ValueError, which `_parse_date` catches before moving to the next
format. -/
def tryFormat (syn : List Char → Option SDate) (l : List Char) : Option SDate :=
  match syn l with
  | some dt => if isValidDate dt.year dt.month dt.day then some dt else none
  | none => none

/-- The six strptime formats of `_parse_date`, attempted in source order on
the stripped input. -/
def parseFormats (l : List Char) : Option SDate :=
  firstSome (fun f => tryFormat f l)
    [matchNameDY monthNamesFull, matchNameDY monthNamesAbbr, matchYMD,
     matchDMY '/', matchMDY '/', matchDMY '-']

/-- Candidates, in greedy order, of the permissive `\d{1,2}` group of the
fallback regex. -/
def num12Cands : List Char → List (Nat × List Char)
  | [] => []
  | [a] => if a.isDigit then [(digitVal a, ([] : List Char))] else []
  | a :: b :: rest =>
    (if a.isDigit && b.isDigit then [(10 * digitVal a + digitVal b, rest)] else []) ++
    (if a.isDigit then [(digitVal a, b :: rest)] else [])

/-- The `[/\-]` separator class of the fallback regex. -/
def isSep (c : Char) : Bool := c == '/' || c == '-'

/-- Match of `(\d{1,2})[/\-](\d{1,2})[/\-](\d{4})` anchored at the current
position (the rest of the string is unconstrained, as under `re.search`).
Returns the (day, month, year) groups. -/
def matchPermissiveAt (l : List Char) : Option (Nat × Nat × Nat) :=
  firstSome (fun dc =>
    match dc.2 with
    | c :: l2 =>
      if isSep c then
        firstSome (fun mc =>
          match mc.2 with
          | c2 :: l4 =>
            if isSep c2 then
              match year4Token l4 with
              | some (y, _) => some (dc.1, mc.1, y)
              | none => none
            else none
          | [] => none) (num12Cands l2)
      else none
    | [] => none) (num12Cands l)

/-- `re.search` of the permissive fallback regex: leftmost match wins. -/
def regexSearchDMY : List Char → Option (Nat × Nat × Nat)
  | [] => none
  | a :: rest =>
    match matchPermissiveAt (a :: rest) with
    | some r => some r
    | none => regexSearchDMY rest

/-- `_parse_date` (horoscope_service.py): try the six strptime formats on the
stripped input, then retry the permissive day/month/year regex on the raw
input. `none` models the uncaught ValueError of either the final `raise` or
an invalid regex-extracted triple handed to `datetime(...)`: the request is
rejected. -/
def parse_date (dob : String) : Option SDate :=
  match parseFormats (stripChars dob.toList) with
  | some dt => some dt
  | none =>
    match regexSearchDMY dob.toList with
    | some (d, m, y) =>
      if isValidDate y m d then some ⟨y, m, d⟩ else none
    | none => none

/-! ## Civil time to Julian Day (`datetime_to_julian`, ephemeris_service.py
lines 121-148) -/

/-- Days before the first of a month within a year, given a leap flag. -/
def daysBeforeMonth (leap : Bool) : Nat → Nat
  | 1 => 0
  | 2 => 31
  | 3 => 59 + (if leap then 1 else 0)
  | 4 => 90 + (if leap then 1 else 0)
  | 5 => 120 + (if leap then 1 else 0)
  | 6 => 151 + (if leap then 1 else 0)
  | 7 => 181 + (if leap then 1 else 0)
  | 8 => 212 + (if leap then 1 else 0)
  | 9 => 243 + (if leap then 1 else 0)
  | 10 => 273 + (if leap then 1 else 0)
  | 11 => 304 + (if leap then 1 else 0)
  | 12 => 334 + (if leap then 1 else 0)
  | _ => 0

/-- Days of the proleptic Gregorian calendar strictly before year `y`
(year 1 is the first). -/
def daysBeforeYear (y : Nat) : Nat :=
  365 * (y - 1) + (y - 1) / 4 - (y - 1) / 100 + (y - 1) / 400

/-- Rata die: the Gregorian day number of (y, m, d), with 0001-01-01 = 1. -/
def rataDie (y m d : Nat) : Nat :=
  daysBeforeYear y + daysBeforeMonth (isLeapYear y) m + d

/-- Modelled from the spec: `swe.julday` is a Swiss Ephemeris routine that is
not part of this repository. The spec describes the result as "a continuous
real-valued day count anchored to a fixed epoch (e.g., Julian Day)", computed
from the Gregorian calendar date plus the fractional UTC hours over 24. -/
def julday (y m d : Nat) (ut : ℚ) : ℚ :=
  (rataDie y m d : ℚ) + (1721424.5 : ℚ) + ut / 24

/-- A civil birth datetime as held by a Python `datetime` object. -/
structure CivilDT where
  year : Nat
  month : Nat
  day : Nat
  hour : Nat
  minute : Nat
  second : Nat
deriving DecidableEq, Repr

/-- A valid civil datetime (Python datetime invariants). -/
def validCivil (t : CivilDT) : Prop :=
  1 ≤ t.year ∧ t.year ≤ 9999 ∧ 1 ≤ t.month ∧ t.month ≤ 12 ∧
  1 ≤ t.day ∧ t.day ≤ daysInMonth t.year t.month ∧
  t.hour ≤ 23 ∧ t.minute ≤ 59 ∧ t.second ≤ 59

instance (t : CivilDT) : Decidable (validCivil t) := by
  unfold validCivil
  exact inferInstance

/-- Lexicographic order on civil datetimes: "earlier in civil time". -/
def civilLT (a b : CivilDT) : Prop :=
  a.year < b.year ∨ (a.year = b.year ∧
    (a.month < b.month ∨ (a.month = b.month ∧
      (a.day < b.day ∨ (a.day = b.day ∧
        (a.hour < b.hour ∨ (a.hour = b.hour ∧
          (a.minute < b.minute ∨ (a.minute = b.minute ∧
            a.second < b.second)))))))))

instance (a b : CivilDT) : Decidable (civilLT a b) := by
  unfold civilLT
  exact inferInstance

/-- The `dt.hour + dt.minute / 60.0 + dt.second / 3600.0` part of
`datetime_to_julian`. -/
def timeFrac (t : CivilDT) : ℚ :=
  (t.hour : ℚ) + (t.minute : ℚ) / 60 + (t.second : ℚ) / 3600

/-- `datetime_to_julian` (ephemeris_service.py): subtract the UTC offset in
hours from the local time-of-day, then hand the calendar date and the
resulting UTC hour to `swe.julday`. -/
def datetime_to_julian (t : CivilDT) (timezone_offset : ℚ) : ℚ :=
  julday t.year t.month t.day (timeFrac t - timezone_offset)

/-! ## Sign derivation and the natal chart (`calculate_chart`,
ephemeris_service.py lines 150-246) -/

/-- Python's `int()` on a float: truncation toward zero. -/
def pyTrunc (x : ℚ) : Int := if 0 ≤ x then ⌊x⌋ else ⌈x⌉

/-- Python's `%` on floats: the result carries the divisor's sign; for a
positive divisor this is `x - y * floor(x / y)`. -/
def pyMod (x y : ℚ) : ℚ := x - y * (⌊x / y⌋ : ℚ)

/-- Derived sign index: `int(longitude / 30)` in `calculate_chart`. -/
def signIndexQ (longitude : ℚ) : Int := pyTrunc (longitude / 30)

/-- Degree within sign: `longitude % 30` in `calculate_chart`. -/
def signDegreeQ (longitude : ℚ) : ℚ := pyMod longitude 30

/-- `ZODIAC_SIGNS[i]` (the embedding returns "" rather than raising on an
out-of-range index; all indices derived from longitudes in [0, 360) are in
range). -/
def signName (i : Int) : String := ZODIAC_SIGNS.getD i.toNat ""

/-- `PlanetData` (ephemeris_service.py). -/
structure PlanetData where
  planet : String
  longitude : ℚ
  latitude : ℚ
  distance : ℚ
  speed : ℚ
  sign : String
  sign_degree : ℚ
  house : Int
deriving DecidableEq, Repr

/-- One raw `swe.calc_ut` result for a planet: the ephemeris provider's
output fed into `calculate_chart` (planets whose calculation raised are
skipped by the source and therefore absent from this list). -/
structure EphemPlanet where
  name : String
  lon : ℚ
  lat : ℚ
  dist : ℚ
  speed : ℚ
deriving DecidableEq, Repr

/-- The external Swiss Ephemeris outputs consumed by one `calculate_chart`
call: the Placidus angles from `swe.houses`, the ayanamsa value, the
`swe.azalt` outcome for the Sun (`none` models the exception branch of
`_calculate_altitude`), and the per-planet `swe.calc_ut` results. -/
structure EphemIn where
  ascendant : ℚ
  mc : ℚ
  ayanamsa : ℚ
  sunAzalt : Option ℚ
  planets : List EphemPlanet
deriving DecidableEq, Repr

/-- `ChartData` (ephemeris_service.py). -/
structure ChartData where
  ascendant : ℚ
  ascendant_sign : String
  ascendant_degree : ℚ
  mc : ℚ
  planets : List PlanetData
  sun_altitude : ℚ
  is_day_chart : Bool
  ayanamsa_value : ℚ
deriving DecidableEq, Repr

/-- `_calculate_altitude` (ephemeris_service.py lines 248-272): return the
`swe.azalt` altitude; on any exception fall back to 0.0. -/
def calcAltitude (azaltRes : Option ℚ) : ℚ :=
  match azaltRes with
  | some alt => alt
  | none => 0

/-- The whole-sign house of a planet-sign index relative to the
ascendant-sign index: `((planet_sign_index - asc_sign_index) % 12) + 1`
(`_assign_whole_sign_houses`, ephemeris_service.py lines 274-287); Python's
`%` on ints agrees with `Int.emod` for a positive modulus. -/
def wholeSignHouse (planetSignIndex ascSignIndex : Int) : Int :=
  (planetSignIndex - ascSignIndex) % 12 + 1

/-- `_assign_whole_sign_houses`: recover each planet's sign index with
`ZODIAC_SIGNS.index(...)` and set its house. -/
def assignWholeSignHouses (planets : List PlanetData) (ascSignIndex : Int) :
    List PlanetData :=
  planets.map (fun p =>
    { p with house := wholeSignHouse (ZODIAC_SIGNS.indexOf p.sign : Int) ascSignIndex })

/-- `calculate_chart` (ephemeris_service.py lines 150-246), with the external
ephemeris outputs passed in explicitly: apply the sidereal correction when
requested, derive the ascendant's sign and degree, determine sect from the
Sun's altitude, build every planet's sign and degree by the same formulas,
and assign whole-sign houses. -/
def calculate_chart (inp : EphemIn) (use_sidereal : Bool) : ChartData :=
  let ayanamsa_value : ℚ := if use_sidereal then inp.ayanamsa else 0
  let ascendant : ℚ :=
    if use_sidereal then pyMod (inp.ascendant - ayanamsa_value) 360 else inp.ascendant
  let mc : ℚ :=
    if use_sidereal then pyMod (inp.mc - ayanamsa_value) 360 else inp.mc
  let asc_sign_index : Int := signIndexQ ascendant
  let ascendant_sign : String := signName asc_sign_index
  let ascendant_degree : ℚ := signDegreeQ ascendant
  let sun_altitude : ℚ := calcAltitude inp.sunAzalt
  let is_day_chart : Bool := decide (0 < sun_altitude)
  let basePlanets : List PlanetData :=
    inp.planets.map (fun q =>
      { planet := q.name, longitude := q.lon, latitude := q.lat,
        distance := q.dist, speed := q.speed,
        sign := signName (signIndexQ q.lon), sign_degree := signDegreeQ q.lon,
        house := 1 })
  { ascendant := ascendant, ascendant_sign := ascendant_sign,
    ascendant_degree := ascendant_degree, mc := mc,
    planets := assignWholeSignHouses basePlanets asc_sign_index,
    sun_altitude := sun_altitude, is_day_chart := is_day_chart,
    ayanamsa_value := ayanamsa_value }

/-! ## Zodiacal reference frames in `_build_cdo_context`
(horoscope_service.py lines 200-250, ephemeris_service.py lines 180-184 and
314-324) -/

/-- The zodiacal reference frame selected by the ephemeris flags. -/
inductive ZodiacFrame where
  | tropical
  | sidereal
deriving DecidableEq, Repr

/-- Swiss Ephemeris flag constants (swisseph). -/
def FLG_SWIEPH : Nat := 2

/-- Topocentric-coordinates flag. -/
def FLG_TOPOCTR : Nat := 32768

/-- Sidereal-zodiac flag. -/
def FLG_SIDEREAL : Nat := 65536

/-- The `calc_flags` built in `calculate_chart` (lines 181-183):
`swe.FLG_SWIEPH | swe.FLG_TOPOCTR`, plus `swe.FLG_SIDEREAL` iff
`use_sidereal`. -/
def chartCalcFlags (use_sidereal : Bool) : Nat :=
  (FLG_SWIEPH ||| FLG_TOPOCTR) ||| (if use_sidereal then FLG_SIDEREAL else 0)

/-- The `calc_flags` built in `get_current_transits` (lines 314-324):
`swe.FLG_SWIEPH`, plus `swe.FLG_SIDEREAL` iff `use_sidereal`. -/
def transitCalcFlags (use_sidereal : Bool) : Nat :=
  FLG_SWIEPH ||| (if use_sidereal then FLG_SIDEREAL else 0)

/-- The reference frame a flag word requests from the ephemeris. -/
def frameOfFlags (flags : Nat) : ZodiacFrame :=
  if flags &&& FLG_SIDEREAL ≠ 0 then ZodiacFrame.sidereal else ZodiacFrame.tropical

/-- `_build_cdo_context` calls `calculate_chart(..., use_sidereal=True)`
(horoscope_service.py line 228): the natal side is hardcoded sidereal. -/
def cdoNatalUseSidereal : Bool := true

/-- `_build_cdo_context` calls `get_current_transits` without `use_sidereal`
(lines 233-237), so the transit side uses the parameter default `False`. -/
def cdoTransitUseSidereal : Bool := false

/-- The frame of the natal positions entering transit-to-natal comparison. -/
def cdoNatalFrame : ZodiacFrame := frameOfFlags (chartCalcFlags cdoNatalUseSidereal)

/-- The frame of the transit positions entering transit-to-natal
comparison. -/
def cdoTransitFrame : ZodiacFrame := frameOfFlags (transitCalcFlags cdoTransitUseSidereal)

/-! ## Fallback summary, profections and age
(horoscope_service.py lines 179-198, 252-302, 503-526) -/

/-- `_calculate_age`: year difference, minus one when the (month, day) tuple
of the current date is lexicographically before that of the birth date,
clamped at 0. -/
def calculate_age (birth today : SDate) : Nat :=
  (((today.year : Int) - (birth.year : Int)) -
    (if today.month < birth.month ∨ (today.month = birth.month ∧ today.day < birth.day)
     then 1 else 0)).toNat

/-- `_get_fallback_zodiac(day, month)` (horoscope_service.py lines 252-292):
tropical sun-sign by date range. -/
def getFallbackZodiac (day month : Nat) : String :=
  if (month = 3 ∧ day ≥ 21) ∨ (month = 4 ∧ day ≤ 19) then "Aries"
  else if (month = 4 ∧ day ≥ 20) ∨ (month = 5 ∧ day ≤ 20) then "Taurus"
  else if (month = 5 ∧ day ≥ 21) ∨ (month = 6 ∧ day ≤ 21) then "Gemini"
  else if (month = 6 ∧ day ≥ 22) ∨ (month = 7 ∧ day ≤ 22) then "Cancer"
  else if (month = 7 ∧ day ≥ 23) ∨ (month = 8 ∧ day ≤ 22) then "Leo"
  else if (month = 8 ∧ day ≥ 23) ∨ (month = 9 ∧ day ≤ 22) then "Virgo"
  else if (month = 9 ∧ day ≥ 23) ∨ (month = 10 ∧ day ≤ 23) then "Libra"
  else if (month = 10 ∧ day ≥ 24) ∨ (month = 11 ∧ day ≤ 22) then "Scorpio"
  else if (month = 11 ∧ day ≥ 23) ∨ (month = 12 ∧ day ≤ 21) then "Sagittarius"
  else if (month = 12 ∧ day ≥ 22) ∨ (month = 1 ∧ day ≤ 19) then "Capricorn"
  else if (month = 1 ∧ day ≥ 20) ∨ (month = 2 ∧ day ≤ 18) then "Aquarius"
  else if (month = 2 ∧ day ≥ 19) ∨ (month = 3 ∧ day ≤ 20) then "Pisces"
  else "Aries"

/-- `_get_fallback_ruler` (horoscope_service.py lines 294-302): domicile
ruler lookup with default "Sun". -/
def getFallbackRuler (sign : String) : String :=
  if sign = "Aries" then "Mars"
  else if sign = "Taurus" then "Venus"
  else if sign = "Gemini" then "Mercury"
  else if sign = "Cancer" then "Moon"
  else if sign = "Leo" then "Sun"
  else if sign = "Virgo" then "Mercury"
  else if sign = "Libra" then "Venus"
  else if sign = "Scorpio" then "Mars"
  else if sign = "Sagittarius" then "Jupiter"
  else if sign = "Capricorn" then "Saturn"
  else if sign = "Aquarius" then "Saturn"
  else if sign = "Pisces" then "Jupiter"
  else "Sun"

/-- The condensed summary record handed to the prompt (the dict shape built
by `_build_fallback_summary` and `build_cdo_summary`). -/
structure CdoSummary where
  sect : String
  ascendant : String
  is_cusp : Bool
  time_lord : String
  profection_house : Nat
  profection_theme : String
  major_aspect : String
  time_lord_activation : Option String
  dignity_warning : String
  malefic_severity : String
deriving DecidableEq, Repr

/-- `_build_fallback_summary` (horoscope_service.py lines 503-526): basic
summary when the CDO is not available; an unparseable date falls back to
Aries/Mars, and the profection house is `(age % 12) + 1`. -/
def build_fallback_summary (dob : String) (birth_time : String) (age : Nat) :
    CdoSummary :=
  let zr : String × String :=
    match parse_date dob with
    | some d =>
      let z := getFallbackZodiac d.day d.month
      (z, getFallbackRuler z)
    | none => ("Aries", "Mars")
  { sect := "Diurnal",
    ascendant := zr.1 ++ " (estimated)",
    is_cusp := false,
    time_lord := zr.2,
    profection_house := age % 12 + 1,
    profection_theme := "General Life Themes",
    major_aspect := "Transits active",
    time_lord_activation := none,
    dignity_warning := "",
    malefic_severity := "constructive" }

/-! ## The generation and caching skeleton (`generate_horoscope`,
horoscope_service.py lines 304-501) -/

/-- The request fields of `generate_horoscope` that the deterministic
skeleton depends on. -/
structure GenRequest where
  dob : String
  birth_time : String
  birth_place : String
  latitude : ℚ
  longitude : ℚ
  timezone_offset : ℚ
  use_cache : Bool
deriving DecidableEq, Repr

/-- A generated card as cached and returned: an opaque LLM payload plus the
attached `cdo_summary` (`None` on the hard fallback card). -/
structure CardVal where
  payload : String
  summary : Option CdoSummary
deriving DecidableEq, Repr

/-- The key of a cache entry. -/
abbrev CacheKey := String × String × String

/-- The cache contents. -/
abbrev Cache := List (CacheKey × CardVal)

/-- Modelled from the spec: `cache_service` (src/.../services/cache_service.py
is not under src/). The spec says nothing persists "except an opaque cache
entry keyed by the identifying birth tuple"; at the call sites the tuple is
`(dob, birth_time, birth_place)`. `cacheGet` looks a key up. -/
def cacheGet : Cache → CacheKey → Option CardVal
  | [], _ => none
  | e :: rest, k => if e.1 = k then some e.2 else cacheGet rest k

/-- Modelled from the spec: `cache_service.set` stores a card under the
identifying birth tuple `(dob, birth_time, birth_place)`. -/
def cacheSet (c : Cache) (k : CacheKey) (v : CardVal) : Cache :=
  (k, v) :: c

/-- The cache key used by both `cache_service.get(dob, birth_time,
birth_place)` (line 336) and `cache_service.set(dob, birth_time,
birth_place, ...)` (line 492): latitude and longitude are not part of it. -/
def lookupKey (r : GenRequest) : CacheKey :=
  (r.dob, r.birth_time, r.birth_place)

/-- The external effects one `generate_horoscope` call observes: today's
date, whether the ephemeris stack initialised (`self.cdo_enabled`), the
outcome of the ephemeris/astro-calculator pipeline when the date parses
(`none` models any exception), and the LLM outcome (`none` models a
generation failure). -/
structure GenExt where
  today : SDate
  cdoEnabled : Bool
  ephemSummary : Option CdoSummary
  llmCard : Option String
deriving Repr

/-- `_build_cdo_context` (horoscope_service.py lines 200-250) as observed by
`generate_horoscope`: it first calls `_parse_date(dob)`, whose ValueError
propagates out of it (caught by the caller); after a successful parse the
result is whatever the ephemeris/astro-calculator pipeline produces. -/
def cdo_context_summary (ext : GenExt) (dob : String) : Option CdoSummary :=
  match parse_date dob with
  | none => none
  | some _ => ext.ephemSummary

/-- Lines 340-372 of `generate_horoscope`: compute the age (defaulting to 30
when `_parse_date` raises), then pick the generation mode and summary: the
CDO path requires `cdo_enabled` and nonzero coordinates and falls back to
`_build_fallback_summary` when `_build_cdo_context` raises. -/
def gen_stage (ext : GenExt) (r : GenRequest) : Nat × String × CdoSummary :=
  let age : Nat :=
    match parse_date r.dob with
    | some d => calculate_age d ext.today
    | none => 30
  if ext.cdoEnabled = true ∧ r.latitude ≠ 0 ∧ r.longitude ≠ 0 then
    match cdo_context_summary ext r.dob with
    | some s => (age, "cdo", s)
    | none => (age, "fallback", build_fallback_summary r.dob r.birth_time age)
  else (age, "fallback", build_fallback_summary r.dob r.birth_time age)

/-- `_get_fallback_card` (horoscope_service.py lines 528-556): the canned
card produced when generation itself fails; it carries no `cdo_summary`. -/
def fallback_card (time_lord sect : String) : CardVal :=
  { payload := "The stars are recalibrating... " ++ time_lord ++ " " ++ sect,
    summary := none }

/-- `generate_horoscope` (horoscope_service.py lines 304-501), deterministic
skeleton: serve a cached card when `use_cache` and the key is present
(returning `was_cached = True` and mode "cdo"); otherwise run `gen_stage`,
then either package the LLM output with the summary attached and cache it
under the identifying birth tuple, or return the fallback card (uncached).
The function always returns a card: no error propagates to the caller. -/
def generate_horoscope (ext : GenExt) (cache : Cache) (r : GenRequest) :
    (CardVal × Bool × String) × Cache :=
  match (if r.use_cache then cacheGet cache (lookupKey r) else none) with
  | some cached => ((cached, true, "cdo"), cache)
  | none =>
    let stage := gen_stage ext r
    let mode := stage.2.1
    let s := stage.2.2
    match ext.llmCard with
    | some content =>
      let card : CardVal := { payload := content, summary := some s }
      ((card, false, mode),
       if r.use_cache then cacheSet cache (lookupKey r) card else cache)
    | none => ((fallback_card s.time_lord s.sect, false, "fallback"), cache)

/-! ## Theorems -/

/-- C1: the claim asserts that natal and transit positions entering
transit-to-natal comparison in `_build_cdo_context` share one zodiacal frame,
tropical unless sidereal is explicitly requested. The code instead hardcodes
`use_sidereal=True` for the natal chart while the transit call uses the
tropical default: the natal side is sidereal, the transit side tropical, and
the frames differ. -/
theorem c1_frame_mismatch :
    cdoNatalFrame = ZodiacFrame.sidereal ∧
    cdoTransitFrame = ZodiacFrame.tropical ∧
    cdoNatalFrame ≠ cdoTransitFrame := by
  decide

/-- C2 counterexample: a chart whose solar-altitude computation failed
(`sunAzalt = none`) is classified as a night chart (`is_day_chart = false`),
not the day chart the claim asserts. -/
theorem c2_counterexample :
    ((⟨100, 10, 24, none, []⟩ : EphemIn).sunAzalt = none) ∧
    (calculate_chart ⟨100, 10, 24, none, []⟩ true).is_day_chart = false := by
  constructor
  · rfl
  · rfl

/-- C2 amended: whenever the solar-altitude computation fails the altitude
defaults to 0.0, so the chart's sect defaults to a NIGHT chart
(`is_day_chart = false`) instead of the whole computation failing; in all
cases `is_day_chart` holds exactly when the computed sun altitude is
greater than 0. -/
theorem c2_amended : ∀ (inp : EphemIn) (b : Bool),
    (inp.sunAzalt = none →
      (calculate_chart inp b).sun_altitude = 0 ∧
      (calculate_chart inp b).is_day_chart = false) ∧
    ((calculate_chart inp b).is_day_chart = true ↔
      0 < (calculate_chart inp b).sun_altitude) := by
  intro inp b
  have hs : (calculate_chart inp b).sun_altitude = calcAltitude inp.sunAzalt := rfl
  have hd : (calculate_chart inp b).is_day_chart =
      decide (0 < calcAltitude inp.sunAzalt) := rfl
  constructor
  · intro hnone
    rw [hs, hd, hnone]
    exact ⟨rfl, by decide⟩
  · rw [hs, hd]
    simp

/-- C2 witness: the amended theorem applied to a concrete failed-altitude
input. -/
theorem c2_amended_witness :
    (calculate_chart ⟨50, 10, 0, none, []⟩ false).sun_altitude = 0 ∧
    (calculate_chart ⟨50, 10, 0, none, []⟩ false).is_day_chart = false :=
  (c2_amended ⟨50, 10, 0, none, []⟩ false).1 rfl

/-- C4: whole-sign house assignment. For every ascendant sign index and
planet sign index in [0, 11] the house `((s - a) mod 12) + 1` lies in
[1, 12]; a planet in the ascendant's sign gets house 1; the induced map from
signs to houses is injective and surjective onto [1, 12]; and
`_assign_whole_sign_houses` gives each planet exactly that house. -/
theorem c4_whole_sign_houses :
    (∀ a : Int, 0 ≤ a → a ≤ 11 →
      (∀ s : Int, 0 ≤ s → s ≤ 11 →
        (1 ≤ wholeSignHouse s a ∧ wholeSignHouse s a ≤ 12) ∧
        (s = a → wholeSignHouse s a = 1)) ∧
      (∀ s1 s2 : Int, 0 ≤ s1 → s1 ≤ 11 → 0 ≤ s2 → s2 ≤ 11 →
        wholeSignHouse s1 a = wholeSignHouse s2 a → s1 = s2) ∧
      (∀ h : Int, 1 ≤ h → h ≤ 12 →
        ∃ s : Int, 0 ≤ s ∧ s ≤ 11 ∧ wholeSignHouse s a = h)) ∧
    (∀ (planets : List PlanetData) (ascIdx : Int),
      ∀ p ∈ assignWholeSignHouses planets ascIdx,
        p.house = wholeSignHouse (ZODIAC_SIGNS.indexOf p.sign : Int) ascIdx) := by
  constructor
  · intro a ha0 ha1
    refine ⟨?_, ?_, ?_⟩
    · intro s hs0 hs1
      unfold wholeSignHouse
      exact ⟨⟨by omega, by omega⟩, fun h => by subst h; omega⟩
    · intro s1 s2 h1 h2 h3 h4 heq
      unfold wholeSignHouse at heq
      omega
    · intro h h1 h2
      refine ⟨(a + h - 1) % 12, by omega, by omega, ?_⟩
      unfold wholeSignHouse
      omega
  · intro planets ascIdx p hp
    unfold assignWholeSignHouses at hp
    simp only [List.mem_map] at hp
    obtain ⟨q, hq, rfl⟩ := hp
    rfl

/-- C4 witness: the house facts at the concrete ascendant index 0 and planet
sign index 3. -/
theorem c4_witness :
    (1 ≤ wholeSignHouse 3 0 ∧ wholeSignHouse 3 0 ≤ 12) ∧
    (wholeSignHouse 0 0 = 1) :=
  ⟨((c4_whole_sign_houses.1 0 (by decide) (by decide)).1 3 (by decide) (by decide)).1,
   ((c4_whole_sign_houses.1 0 (by decide) (by decide)).1 0 (by decide) (by decide)).2 rfl⟩

/-- C5: for every birth-time string matching neither the 12-hour regex
`(\d{1,2}):(\d{2})\s*(AM|PM|am|pm)?` nor the 24-hour regex
`(\d{1,2}):(\d{2})` — the empty string included — `_parse_time` returns
local noon (12, 0); being a total function, it never raises. -/
theorem c5_time_default_noon (s : String)
    (h12 : matchTime12 (stripChars s.toList) = none)
    (h24 : hmMatch (stripChars s.toList) = none) :
    parse_time s = (12, 0) := by
  simp only [parse_time, h12, h24]

/-- C5 witness: the empty birth-time string matches neither pattern and
yields noon. -/
theorem c5_witness :
    matchTime12 (stripChars "".toList) = none ∧
    hmMatch (stripChars "".toList) = none ∧
    parse_time "" = (12, 0) :=
  ⟨by decide, by decide, c5_time_default_noon "" (by decide) (by decide)⟩

/-- C7: the profection house produced by `_build_fallback_summary` is
`(age mod 12) + 1`, lies in [1, 12], is periodic in age with period 12, and
equals 7 at age 30. -/
theorem c7_profection : ∀ (dob birth_time : String) (age : Nat),
    (build_fallback_summary dob birth_time age).profection_house = age % 12 + 1 ∧
    1 ≤ (build_fallback_summary dob birth_time age).profection_house ∧
    (build_fallback_summary dob birth_time age).profection_house ≤ 12 ∧
    (build_fallback_summary dob birth_time (age + 12)).profection_house =
      (build_fallback_summary dob birth_time age).profection_house ∧
    (build_fallback_summary dob birth_time 30).profection_house = 7 := by
  intro dob bt age
  have h1 : (build_fallback_summary dob bt age).profection_house = age % 12 + 1 := rfl
  have h2 : (build_fallback_summary dob bt (age + 12)).profection_house =
      (age + 12) % 12 + 1 := rfl
  have h3 : (build_fallback_summary dob bt 30).profection_house = 30 % 12 + 1 := rfl
  refine ⟨h1, ?_, ?_, ?_, ?_⟩ <;> omega

/-- C8: for every longitude L in [0, 360) the derived sign index
`int(L / 30)` lies in [0, 11] and the degree-within-sign `L % 30` lies in
[0, 30); and `calculate_chart` derives the sign and degree of the ascendant
and of every planet by exactly these formulas. -/
theorem c8_sign_derivation :
    (∀ L : ℚ, 0 ≤ L → L < 360 →
      0 ≤ signIndexQ L ∧ signIndexQ L ≤ 11 ∧
      0 ≤ signDegreeQ L ∧ signDegreeQ L < 30) ∧
    (∀ (inp : EphemIn) (b : Bool),
      (calculate_chart inp b).ascendant_sign =
        signName (signIndexQ (calculate_chart inp b).ascendant) ∧
      (calculate_chart inp b).ascendant_degree =
        signDegreeQ (calculate_chart inp b).ascendant ∧
      ∀ p ∈ (calculate_chart inp b).planets,
        p.sign = signName (signIndexQ p.longitude) ∧
        p.sign_degree = signDegreeQ p.longitude) := by
  constructor
  · intro L h0 h360
    have h30 : (0 : ℚ) < 30 := by norm_num
    have hdiv0 : 0 ≤ L / 30 := by positivity
    have heq : 30 * (L / 30) = L := by field_simp
    have hidx : signIndexQ L = ⌊L / 30⌋ := by
      unfold signIndexQ pyTrunc
      rw [if_pos hdiv0]
    have hfl : (⌊L / 30⌋ : ℚ) ≤ L / 30 := Int.floor_le _
    have hfu : L / 30 < ⌊L / 30⌋ + 1 := Int.lt_floor_add_one _
    refine ⟨?_, ?_, ?_, ?_⟩
    · rw [hidx]
      exact Int.floor_nonneg.mpr hdiv0
    · rw [hidx]
      have hlt : L / 30 < 12 := by
        rw [div_lt_iff₀ h30]
        linarith
      have hfloor : ⌊L / 30⌋ < (12 : Int) := by
        rw [Int.floor_lt]
        exact_mod_cast hlt
      omega
    · unfold signDegreeQ pyMod
      nlinarith
    · unfold signDegreeQ pyMod
      nlinarith
  · intro inp b
    refine ⟨rfl, rfl, ?_⟩
    intro p hp
    simp only [calculate_chart, assignWholeSignHouses, List.mem_map] at hp
    obtain ⟨x, ⟨q, hq, rfl⟩, rfl⟩ := hp
    exact ⟨rfl, rfl⟩

/-- C8 witness: the range facts at the concrete longitude 45. -/
theorem c8_witness :
    0 ≤ signIndexQ 45 ∧ signIndexQ 45 ≤ 11 ∧
    0 ≤ signDegreeQ 45 ∧ signDegreeQ 45 < 30 :=
  c8_sign_derivation.1 45 (by norm_num) (by norm_num)

/-- C3 counterexample: with the unparseable birth date "notadate" (shown
unparseable), `generate_horoscope` does not reject the request: it returns a
normal card in fallback mode whose attached summary was built from the
substituted default age 30 (hence profection house 7) with the Aries/Mars
defaults. -/
theorem c3_counterexample :
    parse_date "notadate" = none ∧
    (generate_horoscope
        ⟨⟨2026, 10, 12⟩, true, some (build_fallback_summary "" "" 0), some "card-json"⟩
        [] ⟨"notadate", "10:00", "Delhi", 1, 1, 0, true⟩).1 =
      ({ payload := "card-json",
         summary := some (build_fallback_summary "notadate" "10:00" 30) },
       false, "fallback") ∧
    (build_fallback_summary "notadate" "10:00" 30).profection_house = 7 ∧
    (build_fallback_summary "notadate" "10:00" 30).time_lord = "Mars" := by
  refine ⟨by decide, by decide, by decide, by decide⟩

/-- C3 amended: for every request whose birth date string cannot be resolved
to a valid calendar date, `generate_horoscope` does not reject the request;
it recovers internally by substituting default values (age 30 and the
fallback summary, which defaults to an Aries ascendant and Mars time lord)
and proceeds in fallback mode, returning a non-cached card. -/
theorem c3_amended : ∀ (ext : GenExt) (r : GenRequest),
    parse_date r.dob = none →
    gen_stage ext r = (30, "fallback", build_fallback_summary r.dob r.birth_time 30) ∧
    ∀ cache : Cache,
      (if r.use_cache then cacheGet cache (lookupKey r) else none) = none →
      (generate_horoscope ext cache r).1.2.1 = false ∧
      (generate_horoscope ext cache r).1.2.2 = "fallback" := by
  intro ext r hparse
  have hstage : gen_stage ext r =
      (30, "fallback", build_fallback_summary r.dob r.birth_time 30) := by
    simp only [gen_stage, cdo_context_summary, hparse]
    split <;> rfl
  refine ⟨hstage, ?_⟩
  intro cache hcache
  unfold generate_horoscope
  rw [hcache, hstage]
  cases ext.llmCard <;> exact ⟨rfl, rfl⟩

/-- C3 witness: the amended theorem applied at a concrete unparseable
date. -/
theorem c3_amended_witness :
    gen_stage ⟨⟨2026, 1, 1⟩, false, none, none⟩ ⟨"bad-date", "t", "p", 0, 0, 0, false⟩ =
      (30, "fallback", build_fallback_summary "bad-date" "t" 30) :=
  (c3_amended ⟨⟨2026, 1, 1⟩, false, none, none⟩ ⟨"bad-date", "t", "p", 0, 0, 0, false⟩
    (by decide)).1

/-- C6 counterexample: on "31/02/1995" every strptime format fails, the
permissive fallback regex DOES match (day 31, month 2, year 1995), and
`_parse_date` still raises, because `datetime(1995, 2, 31)` is invalid: the
claimed "raises iff the regex fails to match" equivalence is false. -/
theorem c6_counterexample :
    parseFormats (stripChars "31/02/1995".toList) = none ∧
    regexSearchDMY "31/02/1995".toList = some (31, 2, 1995) ∧
    parse_date "31/02/1995" = none := by
  refine ⟨by decide, by decide, by decide⟩

/-- C6 amended: `_parse_date` returns the parsed calendar date for every
input one of the six supported strptime formats accepts; for any other
string it retries the permissive day/month/year regex, and it raises an
error if and only if that regex also fails to match OR the day/month/year it
extracts do not form a valid calendar date. -/
theorem c6_amended : ∀ s : String,
    (∀ dt, parseFormats (stripChars s.toList) = some dt → parse_date s = some dt) ∧
    ((parse_date s).isSome = true ↔
      ((parseFormats (stripChars s.toList)).isSome = true ∨
       ∃ d m y, regexSearchDMY s.toList = some (d, m, y) ∧ isValidDate y m d = true)) := by
  intro s
  constructor
  · intro dt hdt
    unfold parse_date
    rw [hdt]
  · unfold parse_date
    cases hf : parseFormats (stripChars s.toList) with
    | some dt => simp
    | none =>
      cases hr : regexSearchDMY s.toList with
      | none => simp
      | some t =>
        obtain ⟨d, m, y⟩ := t
        by_cases hv : isValidDate y m d = true
        · simp only [hv, if_true, Option.isSome_some, Option.isSome_none, true_iff]
          exact Or.inr ⟨d, m, y, rfl, hv⟩
        · simp [hv]

/-- C6 witness: the amended theorem's positive direction at a concrete
ISO-form date. -/
theorem c6_amended_witness :
    parse_date "1995-04-20" = some ⟨1995, 4, 20⟩ :=
  (c6_amended "1995-04-20").1 ⟨1995, 4, 20⟩ (by decide)

/-- C10: for generate_horoscope calls with caching enabled that agree on the
dob, birth_time and birth_place strings, the cache lookup key is identical no
matter what the latitudes and longitudes are (the key is the triple of those
strings); after a first call stores its card, a second call agreeing on the
triple — with any other coordinates — is served exactly the card cached by
the first, marked as cached. -/
theorem c10_cache_key_location_blind :
    ∀ (ext1 ext2 : GenExt) (cache : Cache) (r1 r2 : GenRequest) (content : String),
    r1.dob = r2.dob → r1.birth_time = r2.birth_time → r1.birth_place = r2.birth_place →
    r1.use_cache = true → r2.use_cache = true →
    cacheGet cache (lookupKey r1) = none →
    ext1.llmCard = some content →
    lookupKey r1 = lookupKey r2 ∧
    (generate_horoscope ext1 cache r1).1.2.1 = false ∧
    cacheGet (generate_horoscope ext1 cache r1).2 (lookupKey r2) =
      some (generate_horoscope ext1 cache r1).1.1 ∧
    (generate_horoscope ext2 (generate_horoscope ext1 cache r1).2 r2).1 =
      ((generate_horoscope ext1 cache r1).1.1, true, "cdo") := by
  intro ext1 ext2 cache r1 r2 content hdob hbt hbp hu1 hu2 hnone hllm
  have hkey : lookupKey r1 = lookupKey r2 := by
    unfold lookupKey
    rw [hdob, hbt, hbp]
  have hg1 : generate_horoscope ext1 cache r1 =
      (({ payload := content, summary := some (gen_stage ext1 r1).2.2 },
        false, (gen_stage ext1 r1).2.1),
       cacheSet cache (lookupKey r1)
         { payload := content, summary := some (gen_stage ext1 r1).2.2 }) := by
    unfold generate_horoscope
    rw [hu1, hllm]
    simp only [if_true]
    rw [hnone]
  have hget : cacheGet (generate_horoscope ext1 cache r1).2 (lookupKey r2) =
      some (generate_horoscope ext1 cache r1).1.1 := by
    rw [hg1]
    unfold cacheSet cacheGet
    rw [if_pos hkey]
  refine ⟨hkey, ?_, hget, ?_⟩
  · rw [hg1]
  · rw [hg1]
    simp [generate_horoscope, cacheGet, cacheSet, hu2, hkey]

/-- C10 witness: two concrete requests sharing the birth strings but with
different coordinates; the second is served the first's cached card. -/
theorem c10_witness :
    (generate_horoscope ⟨⟨2026, 1, 1⟩, true, none, none⟩
        (generate_horoscope ⟨⟨2026, 1, 1⟩, true, none, some "c1"⟩ []
          ⟨"1995-04-20", "16:30", "New Delhi", 28, 77, 0, true⟩).2
        ⟨"1995-04-20", "16:30", "New Delhi", 51, 13, 0, true⟩).1 =
      ((generate_horoscope ⟨⟨2026, 1, 1⟩, true, none, some "c1"⟩ []
          ⟨"1995-04-20", "16:30", "New Delhi", 28, 77, 0, true⟩).1.1, true, "cdo") :=
  (c10_cache_key_location_blind ⟨⟨2026, 1, 1⟩, true, none, some "c1"⟩
    ⟨⟨2026, 1, 1⟩, true, none, none⟩ []
    ⟨"1995-04-20", "16:30", "New Delhi", 28, 77, 0, true⟩
    ⟨"1995-04-20", "16:30", "New Delhi", 51, 13, 0, true⟩
    "c1" rfl rfl rfl rfl rfl rfl rfl).2.2.2

set_option maxHeartbeats 1600000 in
/-- One Gregorian year advances the day count by 365 plus the leap
correction. -/
theorem daysBeforeYear_succ (y : Nat) (hy : 1 ≤ y) :
    daysBeforeYear (y + 1) = daysBeforeYear y + 365 + (if isLeapYear y then 1 else 0) := by
  have hleap : (if isLeapYear y then (1 : Nat) else 0) =
      if (y % 4 = 0 ∧ ¬ y % 100 = 0) ∨ y % 400 = 0 then 1 else 0 := by
    unfold isLeapYear
    by_cases h : (y % 4 = 0 ∧ ¬ y % 100 = 0) ∨ y % 400 = 0 <;> simp [h]
  rw [hleap]
  obtain ⟨n, rfl⟩ : ∃ n, y = n + 1 := ⟨y - 1, by omega⟩
  unfold daysBeforeYear
  by_cases h : ((n + 1) % 4 = 0 ∧ ¬ (n + 1) % 100 = 0) ∨ (n + 1) % 400 = 0
  · rw [if_pos h]
    omega
  · rw [if_neg h]
    omega

/-- `daysBeforeYear` is monotone. -/
theorem daysBeforeYear_mono {y1 y2 : Nat} (h : y1 ≤ y2) :
    daysBeforeYear y1 ≤ daysBeforeYear y2 := by
  unfold daysBeforeYear
  have h1 : (y1 - 1) / 4 ≤ (y2 - 1) / 4 := by omega
  have h2 : (y1 - 1) / 100 ≤ (y2 - 1) / 100 := by omega
  have h3 : (y1 - 1) / 400 ≤ (y2 - 1) / 400 := by omega
  have h4 : (y1 - 1) / 100 ≤ (y1 - 1) / 4 := by omega
  have h5 : (y2 - 1) / 100 ≤ (y2 - 1) / 4 := by omega
  omega

/-- Day-of-year bounds: for a valid month and day, the offset within the
year lies in [1, 365 + leap]. -/
theorem dayOfYear_bounds (leap : Bool) (m d : Nat) (hm1 : 1 ≤ m) (hm2 : m ≤ 12)
    (hd1 : 1 ≤ d) (hd2 : d ≤ daysInMonthL leap m) :
    1 ≤ daysBeforeMonth leap m + d ∧
    daysBeforeMonth leap m + d ≤ 365 + (if leap then 1 else 0) := by
  interval_cases m <;> cases leap <;>
    simp [daysBeforeMonth, daysInMonthL] at * <;> omega

/-- Within one year, a later (month, day) has a strictly larger day
offset. -/
theorem monthOrder_lt (leap : Bool) {m1 d1 m2 d2 : Nat} (hm1 : 1 ≤ m1)
    (h12 : m1 < m2) (hm2 : m2 ≤ 12) (hd1 : d1 ≤ daysInMonthL leap m1)
    (hd2 : 1 ≤ d2) :
    daysBeforeMonth leap m1 + d1 < daysBeforeMonth leap m2 + d2 := by
  have hm1' : m1 ≤ 11 := by omega
  interval_cases m1 <;> interval_cases m2 <;> cases leap <;>
    simp [daysBeforeMonth, daysInMonthL] at * <;> omega

/-- `rataDie` is strictly monotone over valid calendar dates ordered
lexicographically. -/
theorem rataDie_lt {y1 m1 d1 y2 m2 d2 : Nat}
    (hy1 : 1 ≤ y1) (hm11 : 1 ≤ m1) (hm12 : m1 ≤ 12) (hd11 : 1 ≤ d1)
    (hd12 : d1 ≤ daysInMonthL (isLeapYear y1) m1)
    (hm21 : 1 ≤ m2) (hm22 : m2 ≤ 12) (hd21 : 1 ≤ d2)
    (hd22 : d2 ≤ daysInMonthL (isLeapYear y2) m2)
    (hlt : y1 < y2 ∨ (y1 = y2 ∧ (m1 < m2 ∨ (m1 = m2 ∧ d1 < d2)))) :
    rataDie y1 m1 d1 < rataDie y2 m2 d2 := by
  rcases hlt with hy | ⟨rfl, hm | ⟨rfl, hd⟩⟩
  · unfold rataDie
    have hb1 := (dayOfYear_bounds (isLeapYear y1) m1 d1 hm11 hm12 hd11 hd12).2
    have hb2 := (dayOfYear_bounds (isLeapYear y2) m2 d2 hm21 hm22 hd21 hd22).1
    have hsucc := daysBeforeYear_succ y1 hy1
    have hmono : daysBeforeYear (y1 + 1) ≤ daysBeforeYear y2 :=
      daysBeforeYear_mono (by omega)
    omega
  · unfold rataDie
    have := monthOrder_lt (isLeapYear y1) hm11 hm hm22 hd12 hd21
    omega
  · unfold rataDie
    omega

/-- The fractional time of day is nonnegative. -/
theorem timeFrac_nonneg (t : CivilDT) : 0 ≤ timeFrac t := by
  unfold timeFrac
  positivity

/-- The fractional time of day of a valid civil datetime is below 24. -/
theorem timeFrac_lt_24 (t : CivilDT) (hh : t.hour ≤ 23) (hm : t.minute ≤ 59)
    (hs : t.second ≤ 59) : timeFrac t < 24 := by
  unfold timeFrac
  have h1 : (t.hour : ℚ) ≤ 23 := by exact_mod_cast hh
  have h2 : (t.minute : ℚ) ≤ 59 := by exact_mod_cast hm
  have h3 : (t.second : ℚ) ≤ 59 := by exact_mod_cast hs
  linarith

/-- On one calendar day, a lexicographically earlier time of day has a
strictly smaller fraction. -/
theorem timeFrac_lt {a b : CivilDT} (hah : a.hour ≤ 23) (ham : a.minute ≤ 59)
    (has : a.second ≤ 59)
    (hlt : a.hour < b.hour ∨ (a.hour = b.hour ∧
      (a.minute < b.minute ∨ (a.minute = b.minute ∧ a.second < b.second)))) :
    timeFrac a < timeFrac b := by
  unfold timeFrac
  have c1 : (a.hour : ℚ) ≤ 23 := by exact_mod_cast hah
  have c2 : (a.minute : ℚ) ≤ 59 := by exact_mod_cast ham
  have c3 : (a.second : ℚ) ≤ 59 := by exact_mod_cast has
  have c4 : 0 ≤ (b.minute : ℚ) := by positivity
  have c5 : 0 ≤ (b.second : ℚ) := by positivity
  rcases hlt with hh | ⟨hh, hm | ⟨hm, hs⟩⟩
  · have : (a.hour : ℚ) + 1 ≤ (b.hour : ℚ) := by exact_mod_cast hh
    linarith
  · rw [hh]
    have : (a.minute : ℚ) + 1 ≤ (b.minute : ℚ) := by exact_mod_cast hm
    linarith
  · rw [hh, hm]
    have : (a.second : ℚ) + 1 ≤ (b.second : ℚ) := by exact_mod_cast hs
    linarith

/-- C9: for a fixed timezone offset, `datetime_to_julian` is strictly
monotonic in civil time: a civil datetime strictly earlier (lexicographically
on year, month, day, hour, minute, second) than another valid one maps to a
strictly smaller Julian Day. -/
theorem c9_julian_monotonic (tz : ℚ) (t1 t2 : CivilDT)
    (h1 : validCivil t1) (h2 : validCivil t2) (hlt : civilLT t1 t2) :
    datetime_to_julian t1 tz < datetime_to_julian t2 tz := by
  obtain ⟨hy1, hy1b, hm11, hm12, hd11, hd12, hh1, hmin1, hs1⟩ := h1
  obtain ⟨hy2, hy2b, hm21, hm22, hd21, hd22, hh2, hmin2, hs2⟩ := h2
  unfold daysInMonth at hd12 hd22
  unfold datetime_to_julian julday
  unfold civilLT at hlt
  by_cases hdate : t1.year = t2.year ∧ t1.month = t2.month ∧ t1.day = t2.day
  · obtain ⟨hey, hem, hed⟩ := hdate
    have htime : t1.hour < t2.hour ∨ (t1.hour = t2.hour ∧
        (t1.minute < t2.minute ∨ (t1.minute = t2.minute ∧ t1.second < t2.second))) := by
      rcases hlt with h | ⟨_, h | ⟨_, h | ⟨_, h⟩⟩⟩ <;> omega
    have hfr : timeFrac t1 < timeFrac t2 :=
      timeFrac_lt hh1 hmin1 hs1 htime
    rw [hey, hem, hed]
    linarith
  · have hdlt : t1.year < t2.year ∨ (t1.year = t2.year ∧
        (t1.month < t2.month ∨ (t1.month = t2.month ∧ t1.day < t2.day))) := by
      rcases hlt with h | ⟨he, h | ⟨he2, h | ⟨he3, h⟩⟩⟩ <;> tauto
    have hr : rataDie t1.year t1.month t1.day < rataDie t2.year t2.month t2.day := by
      apply rataDie_lt hy1 hm11 hm12 hd11 hd12 hm21 hm22 hd21 hd22 hdlt
    have hrq : (rataDie t1.year t1.month t1.day : ℚ) + 1 ≤
        (rataDie t2.year t2.month t2.day : ℚ) := by exact_mod_cast hr
    have hf1 : timeFrac t1 < 24 := timeFrac_lt_24 t1 hh1 hmin1 hs1
    have hf2 : 0 ≤ timeFrac t2 := timeFrac_nonneg t2
    linarith

/-- C9 witness: the leap-day boundary 2020-02-28 23:59:59 comes strictly
before 2020-02-29 00:00:00 at offset +5.5. -/
theorem c9_witness :
    validCivil ⟨2020, 2, 28, 23, 59, 59⟩ ∧ validCivil ⟨2020, 2, 29, 0, 0, 0⟩ ∧
    civilLT ⟨2020, 2, 28, 23, 59, 59⟩ ⟨2020, 2, 29, 0, 0, 0⟩ ∧
    datetime_to_julian ⟨2020, 2, 28, 23, 59, 59⟩ (11 / 2) <
      datetime_to_julian ⟨2020, 2, 29, 0, 0, 0⟩ (11 / 2) :=
  ⟨by decide, by decide, by decide,
   c9_julian_monotonic (11 / 2) ⟨2020, 2, 28, 23, 59, 59⟩ ⟨2020, 2, 29, 0, 0, 0⟩
     (by decide) (by decide) (by decide)⟩
